import Mathlib

/-!
Verification of the timezone-aware carry-forward and duration-accounting
engine of the daily-task tracker.

Shallow embedding conventions:
* A UTC instant is an `Int`: seconds since the Unix epoch.  The source
  stores instants as ISO-8601 UTC strings; the encoding is order- and
  arithmetic-faithful.
* A local calendar date is an `Int`: days since 1970-01-01 in the
  proleptic Gregorian calendar.  The source stores dates as `yyyy-MM-dd`
  strings and compares them with lexicographic `<`, which on valid ISO
  dates coincides with chronological `<` on day numbers.
* A timezone is a pair of offset functions (seconds east of UTC): one
  consulted when converting a UTC instant to local wall-clock time
  (luxon `setZone`), one consulted when interpreting a local wall-clock
  datetime in the zone (luxon `fromISO`/`fromFormat` with a `zone`
  option, which uses the offset in effect at that local time).  A
  fixed-offset zone has both functions constant.
-/

namespace TaskApp

/-- Seconds in a civil day. -/
def secondsPerDay : Int := 86400

/-- A timezone, as the two conversions luxon performs.
`offsetOfInstant t` is the zone's UTC offset (seconds) in effect at the
UTC instant `t`; `offsetOfLocal l` is the offset the zone applies when a
local wall-clock datetime `l` (seconds since the epoch read as a local
calendar clock) is interpreted in the zone. -/
structure Zone where
  offsetOfInstant : Int → Int
  offsetOfLocal : Int → Int

/-- Convert a UTC instant to local wall-clock seconds (luxon
`DateTime.fromISO(utc, \x7bzone: 'UTC'\x7d).setZone(tz)`). -/
def utcToLocal (z : Zone) (t : Int) : Int :=
  t + z.offsetOfInstant t

/-- Extract the wall-clock time of day, in seconds since local midnight,
of a UTC instant viewed in zone `z` (the `HH:mm:ss` part produced by
`originalStartDt.toFormat('HH:mm:ss')` in `carryForwardTasks`).
`Int.emod` returns a value in `[0, 86400)`, as a wall clock does. -/
def localTimeOfDay (z : Zone) (t : Int) : Int :=
  utcToLocal z t % secondsPerDay

/-- Interpret a local wall-clock datetime in zone `z` and convert it to
a UTC instant (luxon `DateTime.fromFormat(..., \x7bzone: tz\x7d).toUTC()`,
and likewise `localToUtcISO` in `src/utils/timezone.ts`): the offset
used is the one in effect for that local datetime. -/
def localToUtc (z : Zone) (l : Int) : Int :=
  l - z.offsetOfLocal l

/-- `getUserTimezone` from `src/utils/timezone.ts`:
`profileTimezone || 'UTC'` — absent or falsy (empty) stored values fall
back to the default `"UTC"`. -/
def getUserTimezone (profileTimezone : Option String) : String :=
  match profileTimezone with
  | some tz => if tz = "" then "UTC" else tz
  | none => "UTC"

/-- Task status enum: the row schema admits exactly
`"pending"` and `"completed"`. -/
inductive Status where
  | pending
  | completed
deriving DecidableEq, Repr

/-- The task row, with the fields the engine and the completion flow
read or write (the `Task` interface of the Tasks page and `TaskCard`).
`task_date` is a local calendar day number, `start_time`/`end_time` are
UTC instants in seconds. -/
structure Task where
  id : Nat
  title : String
  description : Option String
  start_time : Int
  end_time : Option Int
  total_time_minutes : Option Nat
  status : Status
  image_path : Option String
  consecutive_missed_days : Nat
  task_date : Int
deriving DecidableEq, Repr

/-- The selection predicate of `carryForwardTasks`: the supabase query
filters `status = "pending"` and `task_date < today` (lexicographic on
ISO date strings, i.e. chronological). -/
def isCandidate (today : Int) (t : Task) : Bool :=
  t.status == Status.pending && t.task_date < today

/-- `daysMissed` in `carryForwardTasks`:
`Math.floor(todayStart.diff(DateTime.fromISO(task.task_date, \x7bzone\x7d), 'days').days)`.
Both datetimes are local midnights of calendar days in the same zone, and
luxon diff with the `'days'` unit uses calendar-day arithmetic, so the
result is the exact whole number of calendar days between the two dates;
`Math.floor` leaves it unchanged.  On day numbers that is `today - d`. -/
def daysMissed (today d : Int) : Int :=
  today - d

/-- The per-candidate update built by `carryForwardTasks` (lines 82-103
of the Tasks page): `task_date := today`; `start_time` is rebuilt from
today's local date plus the old start's local time of day, interpreted
in the zone and converted to UTC; `consecutive_missed_days` becomes
`(task.consecutive_missed_days || 0) + daysMissed` (`|| 0` is the
identity on the non-null numeric column).  The three fields are written
in one row update; every other column is untouched. -/
def rollTask (z : Zone) (today : Int) (t : Task) : Task :=
  let dm := daysMissed today t.task_date
  let timeOfDay := localTimeOfDay z t.start_time
  let newStartTimeUtc := localToUtc z (today * secondsPerDay + timeOfDay)
  { t with
    task_date := today
    start_time := newStartTimeUtc
    consecutive_missed_days := t.consecutive_missed_days + dm.toNat }

/-- One task's treatment by a reconciliation pass: candidates are rolled
forward, all other rows are left exactly as they are (they are not even
selected by the query). -/
def carryStep (z : Zone) (today : Int) (t : Task) : Task :=
  if isCandidate today t then rollTask z today t else t

/-- One reconciliation pass of `carryForwardTasks` over the user's task
rows, for a resolved zone `z` and resolved local calendar day `today`. -/
def carryForwardTasks (z : Zone) (today : Int) (ts : List Task) : List Task :=
  ts.map (carryStep z today)

/-- The status classifier `getTaskStatusInfo` returns one of four
display classifications (here without the CSS class strings). -/
inductive Classification where
  | completedC
  | overdue (n : Nat)
  | carried (n : Nat)
  | pendingC
deriving DecidableEq, Repr

/-- `getTaskStatusInfo` from the Tasks page: completed first, then
`consecutive_missed_days >= 3` → Overdue, then `> 0` → Carried, else
Pending. -/
def getTaskStatusInfo (t : Task) : Classification :=
  if t.status == Status.completed then
    Classification.completedC
  else if t.consecutive_missed_days ≥ 3 then
    Classification.overdue t.consecutive_missed_days
  else if t.consecutive_missed_days > 0 then
    Classification.carried t.consecutive_missed_days
  else
    Classification.pendingC

/-- The badge label of each classification, as the template literals in
`getTaskStatusInfo` render it. -/
def classificationLabel : Classification → String
  | Classification.completedC => "Completed"
  | Classification.overdue n => "Overdue " ++ toString n ++ " days"
  | Classification.carried n =>
      "Carried " ++ toString n ++ (if n > 1 then " days" else " day")
  | Classification.pendingC => "Pending"

/-- Day number of a proleptic-Gregorian civil date (days since
1970-01-01), used to write the spec's concrete dates as day numbers. -/
def daysFromCivil (y m d : Int) : Int :=
  let y := if m ≤ 2 then y - 1 else y
  let era := (if 0 ≤ y then y else y - 399) / 400
  let yoe := y - era * 400
  let mp := (m + 9) % 12
  let doy := (153 * mp + 2) / 5 + d - 1
  let doe := yoe * 365 + yoe / 4 - yoe / 100 + doy
  era * 146097 + doe - 719468

/-- A UTC instant from a civil UTC date and wall-clock time. -/
def utcInstant (y m d hh mm ss : Int) : Int :=
  daysFromCivil y m d * secondsPerDay + hh * 3600 + mm * 60 + ss

/-- Asia/Kolkata: fixed offset UTC+5:30, no DST. -/
def kolkata : Zone :=
  { offsetOfInstant := fun _ => 19800
    offsetOfLocal := fun _ => 19800 }

/-- The error kinds the completion flow in `TaskCard.handleComplete`
can abort with: a negative-duration validation failure, a photo upload
failure, or a missing authenticated user before the upload. -/
inductive CompletionError where
  | validation
  | upload
  | notAuthenticated
deriving DecidableEq, Repr

/-- Modelled from the spec: `calculateTaskDuration` is imported from
`src/utils/taskDuration.ts`, which is absent from the repository
snapshot (only its caller `TaskCard.handleComplete` is present).  The
spec's `computeDuration(startInstant, endInstant)` returns
`floor((endInstant - startInstant) in seconds / 60)` minutes, fails
with a ValidationError when `endInstant < startInstant`, and ignores
the user's timezone even though the caller passes it as a third
argument.  `Int` division on the non-negative difference is the floor. -/
def calculateTaskDuration (startInstant endInstant : Int) (_tz : Zone) :
    Except CompletionError Nat :=
  if endInstant < startInstant then
    Except.error CompletionError.validation
  else
    Except.ok ((endInstant - startInstant) / 60).toNat

/-- Modelled from the spec: `formatDuration` is also in the missing
`src/utils/taskDuration.ts`.  Values below 60 minutes render as
minutes only; values at or above 60 render as hours plus the remainder
minutes. -/
def formatDuration (minutes : Nat) : String :=
  if minutes < 60 then
    toString minutes ++ "m"
  else
    toString (minutes / 60) ++ "h " ++ toString (minutes % 60) ++ "m"

/-- `TaskCard.handleComplete`, with its external effects made explicit:
`completionLocal` is the dialog's local wall-clock datetime (converted
to UTC via `localToUtcISO` first); `completionImage` is the optional
photo, given as the storage path the upload would produce;
`uploadFails` is whether the object-storage upload errors.  The flow
computes the duration (which can throw a validation error), then
uploads the photo if one was supplied (throwing on failure), and only
then issues the single row update setting `status`, `end_time`,
`total_time_minutes` and `image_path`; any thrown error reaches the
surrounding catch before that update, leaving the row untouched. -/
def handleComplete (z : Zone) (t : Task) (completionLocal : Int)
    (completionImage : Option String) (uploadFails : Bool) :
    Except CompletionError Task :=
  let utcCompletionTime := localToUtc z completionLocal
  match calculateTaskDuration t.start_time utcCompletionTime z with
  | Except.error e => Except.error e
  | Except.ok durationMinutes =>
    let imageStep : Except CompletionError (Option String) :=
      match completionImage with
      | some fileName =>
          if uploadFails then Except.error CompletionError.upload
          else Except.ok (some fileName)
      | none => Except.ok t.image_path
    match imageStep with
    | Except.error e => Except.error e
    | Except.ok imagePath =>
        Except.ok { t with
          status := Status.completed
          end_time := some utcCompletionTime
          total_time_minutes := some durationMinutes
          image_path := imagePath }

/-- The task row as it stands after a completion attempt: on success
the updated row was written, on any error the catch block ran instead
and the row was never mutated. -/
def commitCompletion (t : Task) : Except CompletionError Task → Task
  | Except.error _ => t
  | Except.ok u => u

/-- The Tasks page component state holding the resolved timezone
(`useState("UTC")`). -/
structure TasksPageState where
  userTimezone : String
deriving DecidableEq, Repr

/-- The state at the first render: `useState("UTC")`. -/
def initialTasksPageState : TasksPageState :=
  { userTimezone := "UTC" }

/-- `fetchUserTimezone` on the Tasks page: reads the profile row and
calls `setUserTimezone(profile.timezone)` when the stored value is
truthy; this is the component state after that update commits. -/
def fetchUserTimezone (profileTimezone : Option String)
    (s : TasksPageState) : TasksPageState :=
  match profileTimezone with
  | some tz => if tz = "" then s else { s with userTimezone := tz }
  | none => s

/-- The timezone identifier `carryForwardTasks` actually uses during
`initializeTasks`.  `initializeTasks`, `fetchUserTimezone` and
`carryForwardTasks` are all closures created at the render that ran the
mount effect, so `carryForwardTasks` reads the `userTimezone` binding
captured at that render — the initial `"UTC"` — not the state that
`setUserTimezone` has meanwhile scheduled for future renders.  The
committed state is threaded here only to make that explicit. -/
def initializeTasksPassTimezone (profileTimezone : Option String) : String :=
  let captured := initialTasksPageState
  let _committed := fetchUserTimezone profileTimezone captured
  captured.userTimezone

/-- Scenario A's task: `task_date = 2025-01-10`,
`start_time = 2025-01-10T13:30:00Z` (19:00 in Asia/Kolkata),
`consecutive_missed_days = 0`, pending. -/
def scenarioATask : Task :=
  { id := 1
    title := "evening workout"
    description := none
    start_time := utcInstant 2025 1 10 13 30 0
    end_time := none
    total_time_minutes := none
    status := Status.pending
    image_path := none
    consecutive_missed_days := 0
    task_date := daysFromCivil 2025 1 10 }

/-- A completed task, used to instantiate per-task statements about
rows the engine must leave alone. -/
def doneTask : Task :=
  { id := 2
    title := "morning run"
    description := some "5k"
    start_time := utcInstant 2025 1 12 3 30 0
    end_time := some (utcInstant 2025 1 12 4 15 0)
    total_time_minutes := some 45
    status := Status.completed
    image_path := some "u/2-completion-1.jpg"
    consecutive_missed_days := 1
    task_date := daysFromCivil 2025 1 12 }

/-- C1: for every pending task with `task_date` strictly before today,
one reconciliation pass replaces it (at its position) by its rolled
version: `task_date` becomes today, `start_time` is rebuilt from
today's local date plus the old start's local time of day, and
`consecutive_missed_days` grows by `daysMissed`, the whole-day local
calendar difference `today - task_date`, which is at least 1 for every
selected task. -/
theorem carryForward_rolls_each_overdue_task (z : Zone) (today : Int)
    (ts : List Task) (i : Nat) (t : Task)
    (hget : ts[i]? = some t)
    (hp : t.status = Status.pending)
    (hd : t.task_date < today) :
    (carryForwardTasks z today ts)[i]? = some (rollTask z today t) ∧
    (rollTask z today t).task_date = today ∧
    (rollTask z today t).start_time
      = localToUtc z (today * secondsPerDay + localTimeOfDay z t.start_time) ∧
    (rollTask z today t).consecutive_missed_days
      = t.consecutive_missed_days + (daysMissed today t.task_date).toNat ∧
    1 ≤ daysMissed today t.task_date := by
  have hcand : isCandidate today t = true := by
    simp [isCandidate, hp, hd]
  refine ⟨?_, rfl, rfl, rfl, ?_⟩
  · rw [carryForwardTasks, List.getElem?_map, hget]
    simp [carryStep, hcand]
  · unfold daysMissed
    omega

/-- Witness for C1 at Scenario A's task and today = 2025-01-13. -/
theorem carryForward_rolls_each_overdue_task_witness :
    ([scenarioATask])[0]? = some scenarioATask ∧
    scenarioATask.status = Status.pending ∧
    scenarioATask.task_date < daysFromCivil 2025 1 13 ∧
    (carryForwardTasks kolkata (daysFromCivil 2025 1 13) [scenarioATask])[0]?
      = some (rollTask kolkata (daysFromCivil 2025 1 13) scenarioATask) ∧
    1 ≤ daysMissed (daysFromCivil 2025 1 13) scenarioATask.task_date := by
  have h := carryForward_rolls_each_overdue_task kolkata (daysFromCivil 2025 1 13)
    [scenarioATask] 0 scenarioATask rfl rfl (by decide)
  exact ⟨rfl, rfl, by decide, h.1, h.2.2.2.2⟩

/-- C2: a task whose `task_date` already equals today, or whose status
is completed, is never a candidate and is left untouched by the pass;
consequently running the pass twice with no day change equals running
it once. -/
theorem carryForward_idempotent_within_day (z : Zone) (today : Int)
    (ts : List Task) (t : Task) :
    ((t.task_date = today ∨ t.status = Status.completed) →
      isCandidate today t = false ∧ carryStep z today t = t) ∧
    carryForwardTasks z today (carryForwardTasks z today ts)
      = carryForwardTasks z today ts := by
  constructor
  · rintro (h | h)
    · have hc : isCandidate today t = false := by simp [isCandidate, h]
      exact ⟨hc, by simp [carryStep, hc]⟩
    · have hc : isCandidate today t = false := by simp [isCandidate, h]
      exact ⟨hc, by simp [carryStep, hc]⟩
  · rw [carryForwardTasks, carryForwardTasks, List.map_map]
    apply List.map_congr_left
    intro u _
    show carryStep z today (carryStep z today u) = carryStep z today u
    by_cases hc : isCandidate today u
    · have hrolled : isCandidate today (rollTask z today u) = false := by
        simp [isCandidate, rollTask]
      simp [carryStep, hc, hrolled]
    · simp [carryStep, hc]

/-- Witness for C2: the completed task is not a candidate and the step
leaves it unchanged. -/
theorem carryForward_idempotent_within_day_witness :
    isCandidate (daysFromCivil 2025 1 13) doneTask = false ∧
    carryStep kolkata (daysFromCivil 2025 1 13) doneTask = doneTask :=
  (carryForward_idempotent_within_day kolkata (daysFromCivil 2025 1 13)
    [] doneTask).1 (Or.inr rfl)

/-- C3: rolling a task forward preserves its local wall-clock time of
day — the new `start_time` is the UTC instant of today's local date
combined with the old start's local time of day, converted with the
offset in effect for that target-day local datetime; whenever the zone
assigns the resulting instant the same offset it used for the
conversion (true of every fixed-offset zone, and of any DST zone away
from a transition instant), the new instant's local time of day equals
the old one.  In particular Scenario A: in Asia/Kolkata with today =
2025-01-13, the task dated 2025-01-10 starting 2025-01-10T13:30:00Z
rolls to `daysMissed = 3`, `task_date = 2025-01-13`,
`start_time = 2025-01-13T13:30:00Z`, `consecutive_missed_days = 3`. -/
theorem roll_preserves_local_wall_clock (z : Zone) (today : Int) (t : Task)
    (hz : z.offsetOfInstant
            (localToUtc z (today * secondsPerDay + localTimeOfDay z t.start_time))
        = z.offsetOfLocal (today * secondsPerDay + localTimeOfDay z t.start_time)) :
    (rollTask z today t).start_time
      = localToUtc z (today * secondsPerDay + localTimeOfDay z t.start_time) ∧
    localTimeOfDay z (rollTask z today t).start_time
      = localTimeOfDay z t.start_time ∧
    daysMissed (daysFromCivil 2025 1 13) scenarioATask.task_date = 3 ∧
    rollTask kolkata (daysFromCivil 2025 1 13) scenarioATask
      = { scenarioATask with
          task_date := daysFromCivil 2025 1 13
          start_time := utcInstant 2025 1 13 13 30 0
          consecutive_missed_days := 3 } := by
  refine ⟨rfl, ?_, by decide, by decide⟩
  show localTimeOfDay z
      (localToUtc z (today * secondsPerDay + localTimeOfDay z t.start_time))
    = localTimeOfDay z t.start_time
  unfold localTimeOfDay utcToLocal at hz ⊢
  rw [hz]
  unfold localToUtc
  unfold secondsPerDay
  generalize t.start_time + z.offsetOfInstant t.start_time = y
  generalize z.offsetOfLocal (today * 86400 + y % 86400) = o
  omega

/-- Witness for C3 at Scenario A (Asia/Kolkata is fixed-offset, so the
offset-coherence hypothesis holds by reflexivity). -/
theorem roll_preserves_local_wall_clock_witness :
    localTimeOfDay kolkata
        (rollTask kolkata (daysFromCivil 2025 1 13) scenarioATask).start_time
      = localTimeOfDay kolkata scenarioATask.start_time :=
  (roll_preserves_local_wall_clock kolkata (daysFromCivil 2025 1 13)
    scenarioATask rfl).2.1

/-- C4: `consecutive_missed_days` never decreases: after one
reconciliation pass the value at every position is at least the value
before, and a successful completion leaves the counter exactly as it
was. -/
theorem consecutive_missed_days_monotone (z : Zone) (today : Int)
    (ts : List Task) (i : Nat) (t u : Task)
    (hget : ts[i]? = some t)
    (hgot : (carryForwardTasks z today ts)[i]? = some u)
    (zc : Zone) (t2 : Task) (cl : Int) (img : Option String) (uf : Bool)
    (r : Task)
    (hc : handleComplete zc t2 cl img uf = Except.ok r) :
    t.consecutive_missed_days ≤ u.consecutive_missed_days ∧
    r.consecutive_missed_days = t2.consecutive_missed_days := by
  constructor
  · rw [carryForwardTasks, List.getElem?_map, hget] at hgot
    have hu : u = carryStep z today t := by
      simpa using hgot.symm
    subst hu
    unfold carryStep
    by_cases hcand : isCandidate today t
    · simp only [hcand, if_true, rollTask]
      exact Nat.le_add_right _ _
    · simp [hcand]
  · simp only [handleComplete] at hc
    split at hc
    · exact absurd hc (by simp)
    · split at hc
      · exact absurd hc (by simp)
      · cases hc
        rfl

/-- Witness for C4: completing Scenario A's task 75 minutes after its
start, with no photo, keeps the counter, and the singleton pass does
not decrease it. -/
theorem consecutive_missed_days_monotone_witness :
    scenarioATask.consecutive_missed_days
      ≤ (rollTask kolkata (daysFromCivil 2025 1 13)
          scenarioATask).consecutive_missed_days ∧
    (commitCompletion scenarioATask
        (handleComplete kolkata scenarioATask
          (utcInstant 2025 1 10 20 15 0) none false)).consecutive_missed_days
      = scenarioATask.consecutive_missed_days := by
  have h := consecutive_missed_days_monotone kolkata (daysFromCivil 2025 1 13)
    [scenarioATask] 0 scenarioATask
    (rollTask kolkata (daysFromCivil 2025 1 13) scenarioATask)
    rfl (by decide)
    kolkata scenarioATask (utcInstant 2025 1 10 20 15 0) none false
    (commitCompletion scenarioATask
      (handleComplete kolkata scenarioATask (utcInstant 2025 1 10 20 15 0) none false))
    rfl
  exact ⟨h.1, h.2⟩

/-- C5: the classifier is total with exact integer boundaries:
completed rows classify Completed whatever the counter; pending rows
classify Overdue(n) at `n ≥ 3`, Carried(n) at `n = 1` or `n = 2`, and
Pending at `n = 0`; every row lands in one of the four
classifications. -/
theorem getTaskStatusInfo_boundaries (t : Task) :
    (t.status = Status.completed →
      getTaskStatusInfo t = Classification.completedC) ∧
    (t.status = Status.pending → 3 ≤ t.consecutive_missed_days →
      getTaskStatusInfo t = Classification.overdue t.consecutive_missed_days) ∧
    (t.status = Status.pending →
      (t.consecutive_missed_days = 1 ∨ t.consecutive_missed_days = 2) →
      getTaskStatusInfo t = Classification.carried t.consecutive_missed_days) ∧
    (t.status = Status.pending → t.consecutive_missed_days = 0 →
      getTaskStatusInfo t = Classification.pendingC) ∧
    (getTaskStatusInfo t = Classification.completedC ∨
     getTaskStatusInfo t = Classification.overdue t.consecutive_missed_days ∨
     getTaskStatusInfo t = Classification.carried t.consecutive_missed_days ∨
     getTaskStatusInfo t = Classification.pendingC) := by
  refine ⟨?_, ?_, ?_, ?_, ?_⟩
  · intro h
    simp [getTaskStatusInfo, h]
  · intro h hn
    simp [getTaskStatusInfo, h, hn]
  · intro h hn
    rcases hn with hn | hn <;> simp [getTaskStatusInfo, h, hn]
  · intro h hn
    simp [getTaskStatusInfo, h, hn]
  · unfold getTaskStatusInfo
    by_cases h1 : t.status == Status.completed
    · simp [h1]
    · by_cases h2 : t.consecutive_missed_days ≥ 3
      · simp [h1, h2]
      · by_cases h3 : t.consecutive_missed_days > 0
        · simp [h1, h2, h3]
        · simp [h1, h2, h3]

/-- Witness for C5: each boundary evaluated on a concrete row. -/
theorem getTaskStatusInfo_boundaries_witness :
    getTaskStatusInfo doneTask = Classification.completedC ∧
    getTaskStatusInfo scenarioATask = Classification.pendingC ∧
    getTaskStatusInfo { scenarioATask with consecutive_missed_days := 2 }
      = Classification.carried 2 ∧
    getTaskStatusInfo { scenarioATask with consecutive_missed_days := 3 }
      = Classification.overdue 3 :=
  ⟨(getTaskStatusInfo_boundaries doneTask).1 rfl,
   (getTaskStatusInfo_boundaries scenarioATask).2.2.2.1 rfl rfl,
   (getTaskStatusInfo_boundaries _).2.2.1 rfl (Or.inr rfl),
   (getTaskStatusInfo_boundaries _).2.1 rfl (by decide)⟩

/-- C6: the duration computation returns `floor((end - start)/60)`
minutes for any start at or before the end, gives the same result for
any two zones (both inputs are absolute instants), evaluates to 75
minutes for the 09:00Z-10:15Z pair of Scenario C, and `formatDuration`
renders 75 as "1h 15m" while any value below 60 renders as minutes
only. -/
theorem calculateTaskDuration_spec (s e : Int) (z1 z2 : Zone) (m : Nat)
    (h : s ≤ e) (hm : m < 60) :
    calculateTaskDuration s e z1 = Except.ok ((e - s) / 60).toNat ∧
    calculateTaskDuration s e z1 = calculateTaskDuration s e z2 ∧
    calculateTaskDuration (utcInstant 2025 1 10 9 0 0)
        (utcInstant 2025 1 10 10 15 0) z1 = Except.ok 75 ∧
    formatDuration 75 = "1h 15m" ∧
    formatDuration m = toString m ++ "m" := by
  refine ⟨?_, rfl, rfl, rfl, ?_⟩
  · simp [calculateTaskDuration, not_lt.2 h]
  · simp [formatDuration, hm]

/-- Witness for C6 at Scenario C's instants and 45 minutes. -/
theorem calculateTaskDuration_spec_witness :
    calculateTaskDuration (utcInstant 2025 1 10 9 0 0)
        (utcInstant 2025 1 10 10 15 0) kolkata = Except.ok 75 ∧
    formatDuration 75 = "1h 15m" ∧
    formatDuration 45 = "45m" := by
  have h := calculateTaskDuration_spec (utcInstant 2025 1 10 9 0 0)
    (utcInstant 2025 1 10 10 15 0) kolkata kolkata 45 (by decide) (by decide)
  exact ⟨h.2.2.1, h.2.2.2.1, h.2.2.2.2⟩

/-- C7: a completion instant earlier than the task's start instant
makes the duration computation fail with a validation error, the
single completion operation aborts, and the row keeps its status,
`end_time`, `total_time_minutes` and `image_path`. -/
theorem completion_before_start_fails_validation (z : Zone) (t : Task)
    (cl : Int) (img : Option String) (uf : Bool)
    (h : localToUtc z cl < t.start_time) :
    handleComplete z t cl img uf = Except.error CompletionError.validation ∧
    commitCompletion t (handleComplete z t cl img uf) = t ∧
    (commitCompletion t (handleComplete z t cl img uf)).status = t.status ∧
    (commitCompletion t (handleComplete z t cl img uf)).end_time = t.end_time ∧
    (commitCompletion t (handleComplete z t cl img uf)).total_time_minutes
      = t.total_time_minutes ∧
    (commitCompletion t (handleComplete z t cl img uf)).image_path
      = t.image_path := by
  have hmain : handleComplete z t cl img uf
      = Except.error CompletionError.validation := by
    simp [handleComplete, calculateTaskDuration, h]
  refine ⟨hmain, ?_, ?_, ?_, ?_, ?_⟩ <;> rw [hmain] <;> rfl

/-- Witness for C7: completing Scenario A's task at local midnight of
the epoch, long before its start, fails and mutates nothing. -/
theorem completion_before_start_fails_validation_witness :
    handleComplete kolkata scenarioATask 0 none false
      = Except.error CompletionError.validation ∧
    commitCompletion scenarioATask
        (handleComplete kolkata scenarioATask 0 none false)
      = scenarioATask := by
  have h := completion_before_start_fails_validation kolkata scenarioATask
    0 none false (by decide)
  exact ⟨h.1, h.2.1⟩

/-- C8 evaluated at the failing input: with a profile whose stored
timezone is "Asia/Kolkata", `getUserTimezone` resolves
"Asia/Kolkata" and `fetchUserTimezone` commits it to the component
state, yet the timezone `carryForwardTasks` reads during
`initializeTasks` is the first-render capture "UTC" — the pass does
not use the resolved timezone, contradicting the claim (and the
code's own "Get today in user's timezone" comment). -/
theorem pass_timezone_is_stale_default :
    initializeTasksPassTimezone (some "Asia/Kolkata") = "UTC" ∧
    getUserTimezone (some "Asia/Kolkata") = "Asia/Kolkata" ∧
    fetchUserTimezone (some "Asia/Kolkata") initialTasksPageState
      = { userTimezone := "Asia/Kolkata" } ∧
    initializeTasksPassTimezone (some "Asia/Kolkata")
      ≠ getUserTimezone (some "Asia/Kolkata") :=
  ⟨rfl, rfl, rfl, by decide⟩

/-- C9: the per-task rollover is exactly the record update writing
`task_date`, `start_time` and `consecutive_missed_days` together, and
every other column — id, title, description, status, `end_time`,
`total_time_minutes`, `image_path` — is unchanged. -/
theorem roll_updates_rolled_fields_only (z : Zone) (today : Int) (t : Task) :
    rollTask z today t
      = { t with
          task_date := today
          start_time :=
            localToUtc z (today * secondsPerDay + localTimeOfDay z t.start_time)
          consecutive_missed_days :=
            t.consecutive_missed_days + (daysMissed today t.task_date).toNat } ∧
    (rollTask z today t).id = t.id ∧
    (rollTask z today t).title = t.title ∧
    (rollTask z today t).description = t.description ∧
    (rollTask z today t).status = t.status ∧
    (rollTask z today t).end_time = t.end_time ∧
    (rollTask z today t).total_time_minutes = t.total_time_minutes ∧
    (rollTask z today t).image_path = t.image_path :=
  ⟨rfl, rfl, rfl, rfl, rfl, rfl, rfl, rfl⟩

/-- C10: when a photo is supplied and its upload fails, the completion
attempt ends in an error (the upload error, or the earlier validation
error when the completion instant precedes the start) before the row
update runs, so status, `end_time`, `total_time_minutes` and
`image_path` all keep their prior values and the task is never marked
completed. -/
theorem upload_failure_aborts_completion (z : Zone) (t : Task)
    (cl : Int) (p : String) :
    (handleComplete z t cl (some p) true = Except.error CompletionError.upload ∨
     handleComplete z t cl (some p) true
       = Except.error CompletionError.validation) ∧
    commitCompletion t (handleComplete z t cl (some p) true) = t ∧
    (commitCompletion t (handleComplete z t cl (some p) true)).status
      = t.status ∧
    (commitCompletion t (handleComplete z t cl (some p) true)).end_time
      = t.end_time ∧
    (commitCompletion t (handleComplete z t cl (some p) true)).total_time_minutes
      = t.total_time_minutes ∧
    (commitCompletion t (handleComplete z t cl (some p) true)).image_path
      = t.image_path := by
  by_cases hlt : localToUtc z cl < t.start_time
  · have hmain : handleComplete z t cl (some p) true
        = Except.error CompletionError.validation := by
      simp [handleComplete, calculateTaskDuration, hlt]
    refine ⟨Or.inr hmain, ?_, ?_, ?_, ?_, ?_⟩ <;> rw [hmain] <;> rfl
  · have hmain : handleComplete z t cl (some p) true
        = Except.error CompletionError.upload := by
      simp [handleComplete, calculateTaskDuration, hlt]
    refine ⟨Or.inl hmain, ?_, ?_, ?_, ?_, ?_⟩ <;> rw [hmain] <;> rfl

end TaskApp
